import Mathlib

/-
Verification of the maptoposter rendering engine specification.

Shallow embedding of the Python sources:
  modules/config.py            (constant tables)
  modules/text_positioning.py  (font scaling, coordinate formatting, slider maths)
  modules/poster_generator.py  (layer defaults, theme loading, kandincity and
                                night-lights helpers, the generate_poster pipeline)
  backend/services/generator_service.py (service-level input validation)

Numeric model: Python floats are modelled as exact rationals (the constant
tables hold short decimal fractions); Python `int(x)` truncates toward zero
and is modelled by `pyInt`; Python `%` on integers with a positive modulus
agrees with `Int.emod`.  Python dictionaries are association lists; an
indexing operation that can raise `KeyError` is modelled in `Except` with the
missing key as the error payload.  Library randomness (`random.Random(seed)`,
`random.uniform`, `random.choice`) is modelled by explicit deterministic
function parameters standing for the underlying generator, and Python's
process-salted built-in `hash` on strings is a function parameter `pyHash`
fixed per process.
-/

/-- Python `int(x)`: truncation toward zero. -/
def pyInt (q : ℚ) : ℤ :=
  if 0 ≤ q then ⌊q⌋ else ⌈q⌉

/-- `PAPER_SCALE_FACTORS` from `modules/config.py` (A4 = reference 1.0). -/
def PAPER_SCALE_FACTORS : List (String × ℚ) :=
  [("A2", 14/10), ("A3", 12/10), ("A4", 1), ("A5", 7/10)]

/-- Python `dict.get(key, default)` over an association list. -/
def dictGetD (d : List (String × ℚ)) (k : String) (dflt : ℚ) : ℚ :=
  match d.find? (fun p => p.1 == k) with
  | some p => p.2
  | none => dflt

/-- `get_paper_scale_factor` from `modules/text_positioning.py`:
`PAPER_SCALE_FACTORS.get(paper_size, 1.0)`. -/
def get_paper_scale_factor (paper_size : String) : ℚ :=
  dictGetD PAPER_SCALE_FACTORS paper_size 1

/-- `ZOOM_SCALE_FACTORS` from `modules/config.py`; the literal list is already
ascending in distance, so the `sorted` call in `get_zoom_scale_factor` is the
identity on it. -/
def ZOOM_SCALE_FACTORS : List (ℤ × ℚ) :=
  [(500, 4/10), (1000, 5/10), (2000, 6/10), (4000, 75/100), (8000, 9/10), (15000, 1)]

/-- The interpolation loop of `get_zoom_scale_factor`: for each consecutive
pair `(dist, factor)`, `(next_dist, next_factor)` with
`dist <= distance_m < next_dist`, return the linear interpolation. -/
def interpLoop : List (ℤ × ℚ) → ℤ → Option ℚ
  | (d, f) :: (d', f') :: rest, x =>
    if d ≤ x ∧ x < d' then
      some (f + ((x : ℚ) - (d : ℚ)) / ((d' : ℚ) - (d : ℚ)) * (f' - f))
    else interpLoop ((d', f') :: rest) x
  | _, _ => none

/-- `get_zoom_scale_factor` from `modules/text_positioning.py`: clamp at the
first/last control point, otherwise interpolate; the trailing `return 1.0`
is the `getD 1`. -/
def get_zoom_scale_factor (distance_m : ℤ) : ℚ :=
  match ZOOM_SCALE_FACTORS with
  | [] => 1
  | first :: rest =>
    let lastp := rest.getLastD first
    if distance_m ≤ first.1 then first.2
    else if lastp.1 ≤ distance_m then lastp.2
    else (interpLoop (first :: rest) distance_m).getD 1

/-- `calculate_font_scale` from `modules/text_positioning.py`. -/
def calculate_font_scale (paper_size : String) (distance_m : ℤ) : ℚ :=
  get_paper_scale_factor paper_size * get_zoom_scale_factor distance_m

/-- `get_scaled_font_size` from `modules/text_positioning.py`:
`max(int(base_size * scale), min_size)` — note Python `int()` truncates. -/
def get_scaled_font_size (base_size : ℤ) (paper_size : String) (distance_m : ℤ)
    (min_size : ℤ) : ℤ :=
  max (pyInt ((base_size : ℚ) * calculate_font_scale paper_size distance_m)) min_size

/-- The zoom scale factor as the specification words it (§4.2): piecewise-
linear interpolation over the control points 500m→0.4, 1000m→0.5, 2000m→0.6,
4000m→0.75, 8000m→0.9, 15000m→1.0, clamped to the extreme factors outside the
table, written out segment by segment. -/
def zoomSpec (x : ℤ) : ℚ :=
  if x ≤ 500 then 4/10
  else if x < 1000 then 4/10 + ((x : ℚ) - 500) / 500 * (1/10)
  else if x < 2000 then 5/10 + ((x : ℚ) - 1000) / 1000 * (1/10)
  else if x < 4000 then 6/10 + ((x : ℚ) - 2000) / 2000 * (15/100)
  else if x < 8000 then 75/100 + ((x : ℚ) - 4000) / 4000 * (15/100)
  else if x < 15000 then 9/10 + ((x : ℚ) - 8000) / 7000 * (1/10)
  else 1

/-- The font-size formula as the specification words it (§4.2):
`max(round(base_size * combined_scale), min_size)` with
`combined_scale = paper_scale * zoom_scale`, the paper table written out and
the zoom factor the piecewise-linear interpolation with clamping. -/
def scaledFontSizeSpec (base_size : ℤ) (paper_size : String) (distance_m : ℤ)
    (min_size : ℤ) : ℤ :=
  let paper : ℚ :=
    if paper_size = "A2" then 14/10
    else if paper_size = "A3" then 12/10
    else if paper_size = "A4" then 1
    else if paper_size = "A5" then 7/10
    else 1
  let zoom : ℚ := zoomSpec distance_m
  max (round ((base_size : ℚ) * (paper * zoom))) min_size

/-- `slider_to_axes_coords` from `modules/text_positioning.py`. -/
def slider_to_axes_coords (slider_x slider_y : ℤ) : ℚ × ℚ :=
  ((slider_x : ℚ) / 100, (slider_y : ℚ) / 100)

/-- `axes_coords_to_slider` from `modules/text_positioning.py`:
`(int(axes_x * 100), int(axes_y * 100))`. -/
def axes_coords_to_slider (axes_x axes_y : ℚ) : ℤ × ℤ :=
  (pyInt (axes_x * 100), pyInt (axes_y * 100))

theorem get_zoom_scale_factor_eq_spec (x : ℤ) :
    get_zoom_scale_factor x = zoomSpec x := by
  simp only [get_zoom_scale_factor, ZOOM_SCALE_FACTORS, zoomSpec, List.getLastD, interpLoop]
  norm_num
  split_ifs <;> first
    | rfl
    | omega

set_option maxHeartbeats 1000000 in
theorem zoomSpec_le_succ (x : ℤ) : zoomSpec x ≤ zoomSpec (x + 1) := by
  unfold zoomSpec
  split_ifs <;> qify at * <;> linarith

theorem zoomSpec_mono {d1 d2 : ℤ} (h : d1 ≤ d2) : zoomSpec d1 ≤ zoomSpec d2 := by
  have key : ∀ k : ℕ, zoomSpec d1 ≤ zoomSpec (d1 + k) := by
    intro k
    induction k with
    | zero => simp
    | succ n ih =>
      have hs : d1 + ((n : ℤ) + 1) = (d1 + n) + 1 := by ring
      have := ih.trans (zoomSpec_le_succ (d1 + n))
      simpa [hs] using this
  obtain ⟨k, hk⟩ := Int.le.dest h
  calc zoomSpec d1 ≤ zoomSpec (d1 + k) := key k
    _ = zoomSpec d2 := by rw [hk]

/-- C5: the zoom scale factor is monotonically non-decreasing in the distance,
equals the minimum factor 0.4 below the 500m control point and the maximum
factor 1.0 above the 15000m control point (no extrapolation). -/
theorem zoom_scale_monotone_and_clamped (d1 d2 : ℤ) (h : d1 ≤ d2) :
    get_zoom_scale_factor d1 ≤ get_zoom_scale_factor d2 ∧
    (d1 < 500 → get_zoom_scale_factor d1 = 4/10) ∧
    (15000 < d2 → get_zoom_scale_factor d2 = 1) := by
  rw [get_zoom_scale_factor_eq_spec, get_zoom_scale_factor_eq_spec]
  refine ⟨zoomSpec_mono h, ?_, ?_⟩
  · intro hlt
    unfold zoomSpec
    rw [if_pos (by omega)]
  · intro hgt
    unfold zoomSpec
    split_ifs <;> first
      | rfl
      | omega

theorem zoom_scale_monotone_and_clamped_witness :
    get_zoom_scale_factor 300 ≤ get_zoom_scale_factor 20000 ∧
    ((300 : ℤ) < 500 → get_zoom_scale_factor 300 = 4/10) ∧
    ((15000 : ℤ) < 20000 → get_zoom_scale_factor 20000 = 1) :=
  zoom_scale_monotone_and_clamped 300 20000 (by decide)

theorem get_paper_scale_factor_eq (p : String) :
    get_paper_scale_factor p =
      (if p = "A2" then 14/10
       else if p = "A3" then 12/10
       else if p = "A4" then 1
       else if p = "A5" then (7/10 : ℚ)
       else 1) := by
  by_cases h2 : p = "A2"
  · subst h2; rfl
  by_cases h3 : p = "A3"
  · subst h3; rfl
  by_cases h4 : p = "A4"
  · subst h4; rfl
  by_cases h5 : p = "A5"
  · subst h5; rfl
  have e2 : ("A2" == p) = false := by simp [beq_iff_eq]; exact fun h => h2 h.symm
  have e3 : ("A3" == p) = false := by simp [beq_iff_eq]; exact fun h => h3 h.symm
  have e4 : ("A4" == p) = false := by simp [beq_iff_eq]; exact fun h => h4 h.symm
  have e5 : ("A5" == p) = false := by simp [beq_iff_eq]; exact fun h => h5 h.symm
  simp [get_paper_scale_factor, dictGetD, PAPER_SCALE_FACTORS, List.find?,
    e2, e3, e4, e5, h2, h3, h4, h5]

/-- C4 amended: for every base size, paper size, distance and minimum size,
`get_scaled_font_size` returns `max(int(base_size * combined_scale), min_size)`
where `int` is Python truncation toward zero (not rounding) and
`combined_scale` is the paper-size table factor multiplied by the
piecewise-linear zoom interpolation factor. -/
theorem scaled_font_size_eq_trunc_formula (base_size : ℤ) (paper_size : String)
    (distance_m : ℤ) (min_size : ℤ) :
    get_scaled_font_size base_size paper_size distance_m min_size =
      max (pyInt ((base_size : ℚ) *
        ((if paper_size = "A2" then 14/10
          else if paper_size = "A3" then 12/10
          else if paper_size = "A4" then 1
          else if paper_size = "A5" then 7/10
          else 1) * zoomSpec distance_m))) min_size := by
  unfold get_scaled_font_size calculate_font_scale
  rw [get_zoom_scale_factor_eq_spec, get_paper_scale_factor_eq]

/-- C4 counterexample: at base size 5, paper A5, distance 15000m, minimum 1,
the combined scale is 0.7, so the spec formula `max(round(3.5), 1)` gives 4,
but `get_scaled_font_size` applies Python `int()` (truncation) and returns 3. -/
theorem scaled_font_size_round_counterexample :
    get_scaled_font_size 5 "A5" 15000 1 ≠ scaledFontSizeSpec 5 "A5" 15000 1 := by
  have hp : get_paper_scale_factor "A5" = 7/10 := rfl
  have hzz : get_zoom_scale_factor 15000 = 1 := rfl
  have hf : (⌊(7/2 : ℚ)⌋ : ℤ) = 3 := by
    rw [Int.floor_eq_iff] <;> norm_num
  have hr : round (7/2 : ℚ) = 4 := by
    rw [round_eq]
    have h4 : (7/2 : ℚ) + 1/2 = 4 := by norm_num
    rw [h4]
    exact_mod_cast Int.floor_intCast 4
  have hq : ((5 : ℤ) : ℚ) * (7/10 * 1) = 7/2 := by push_cast; norm_num
  have h1 : get_scaled_font_size 5 "A5" 15000 1 = 3 := by
    unfold get_scaled_font_size calculate_font_scale
    rw [hp, hzz, hq]
    unfold pyInt
    rw [if_pos (by norm_num), hf]
    decide
  have h2 : scaledFontSizeSpec 5 "A5" 15000 1 = 4 := by
    simp only [scaledFontSizeSpec]
    rw [if_neg (by decide), if_neg (by decide), if_neg (by decide)]
    simp only [if_true]
    have hzs : zoomSpec 15000 = 1 := rfl
    rw [hzs, hq, hr]
    decide
  rw [h1, h2]
  decide

/-- C9: converting a slider pair in [0,100]×[0,100] to axes coordinates and
back returns a pair within distance 1 of the original (in the exact rational
model the round trip is in fact the identity, so the tolerance-1 bound holds). -/
theorem slider_roundtrip_within_one (sx sy : ℤ)
    (hx0 : 0 ≤ sx) (hx1 : sx ≤ 100) (hy0 : 0 ≤ sy) (hy1 : sy ≤ 100) :
    |(axes_coords_to_slider (slider_to_axes_coords sx sy).1
        (slider_to_axes_coords sx sy).2).1 - sx| ≤ 1 ∧
    |(axes_coords_to_slider (slider_to_axes_coords sx sy).1
        (slider_to_axes_coords sx sy).2).2 - sy| ≤ 1 := by
  have hdiv : ∀ z : ℤ, pyInt ((z : ℚ) / 100 * 100) = z := by
    intro z
    have h100 : ((z : ℚ) / 100) * 100 = (z : ℚ) := by
      field_simp
    rw [h100]
    unfold pyInt
    split_ifs <;> simp
  simp only [slider_to_axes_coords, axes_coords_to_slider, hdiv]
  simp

theorem slider_roundtrip_within_one_witness :
    |(axes_coords_to_slider (slider_to_axes_coords 37 99).1
        (slider_to_axes_coords 37 99).2).1 - 37| ≤ 1 ∧
    |(axes_coords_to_slider (slider_to_axes_coords 37 99).1
        (slider_to_axes_coords 37 99).2).2 - 99| ≤ 1 :=
  slider_roundtrip_within_one 37 99 (by decide) (by decide) (by decide) (by decide)

/-- Zero-pad the decimal representation of `n` on the left to width `w`. -/
def natPadZeros (w : ℕ) (n : ℕ) : String :=
  let s := toString n
  String.mk (List.replicate (w - s.length) (Char.ofNat 48)) ++ s

/-- Python fixed-point formatting of a nonnegative value in the exact
rational model: round to `d` decimal places and print with the fraction part
zero-padded to `d` digits.  (CPython formats the underlying double with
half-to-even ties; no instance appearing in the claims is a tie, so plain
rounding is faithful on them.) -/
def formatFixedNonneg (d : ℕ) (q : ℚ) : String :=
  let n : ℕ := (round (q * ((10 : ℕ) ^ d : ℕ))).toNat
  toString (n / 10 ^ d) ++ "." ++ natPadZeros d (n % 10 ^ d)

/-- Python fixed-point formatting including the sign. -/
def formatFixed (d : ℕ) (q : ℚ) : String :=
  if q < 0 then "-" ++ formatFixedNonneg d (-q) else formatFixedNonneg d q

/-- `format_coordinates` from `modules/text_positioning.py`: hemisphere
letters from the sign of the inputs, absolute values for the numerals, and
four output shapes selected by `format_type`. -/
def format_coordinates (lat lon : ℚ) (format_type : String) : String :=
  let lat_hemisphere := if 0 ≤ lat then "N" else "S"
  let lon_hemisphere := if 0 ≤ lon then "E" else "W"
  let lat_abs := |lat|
  let lon_abs := |lon|
  if format_type = "decimal" then
    formatFixed 4 lat_abs ++ ", " ++ formatFixed 4 lon_abs
  else if format_type = "compact" then
    formatFixed 1 lat_abs ++ "°" ++ lat_hemisphere ++ " / " ++
      formatFixed 1 lon_abs ++ "°" ++ lon_hemisphere
  else if format_type = "dms" then
    let lat_deg := pyInt lat_abs
    let lat_min := (lat_abs - lat_deg) * 60
    let lon_deg := pyInt lon_abs
    let lon_min := (lon_abs - lon_deg) * 60
    toString lat_deg ++ "°" ++ toString (pyInt lat_min) ++ "\x27" ++ lat_hemisphere ++
      " / " ++ toString lon_deg ++ "°" ++ toString (pyInt lon_min) ++ "\x27" ++ lon_hemisphere
  else
    formatFixed 4 lat_abs ++ "° " ++ lat_hemisphere ++ " / " ++
      formatFixed 4 lon_abs ++ "° " ++ lon_hemisphere

theorem formatFixed4_of_num (m : ℕ) (q : ℚ) (h0 : 0 ≤ q)
    (hm : q * ((10 : ℕ) ^ (4 : ℕ) : ℕ) = (m : ℚ)) :
    formatFixed 4 q = toString (m / 10000) ++ "." ++ natPadZeros 4 (m % 10000) := by
  unfold formatFixed formatFixedNonneg
  rw [if_neg (not_lt.mpr h0), hm]
  norm_num

theorem format_coordinates_decimal_eq (a b : ℚ) :
    format_coordinates a b "decimal" =
      formatFixed 4 |a| ++ ", " ++ formatFixed 4 |b| := rfl

theorem format_coordinates_default_eq (a b : ℚ) :
    format_coordinates a b "default" =
      formatFixed 4 |a| ++ "° " ++ (if 0 ≤ a then "N" else "S") ++ " / " ++
        formatFixed 4 |b| ++ "° " ++ (if 0 ≤ b then "E" else "W") := rfl

/-- C10: in decimal mode `format_coordinates` prints the absolute values with
four decimal places and no hemisphere letter or minus sign, so a coordinate
and its southern/western mirror are indistinguishable (illustrated at Sydney,
lat = -33.8688, lon = 151.2093, which prints as "33.8688, 151.2093"); the
hemisphere letters chosen by the sign of the input appear in the other
formats, here shown for `default`. -/
theorem format_coordinates_decimal_uses_abs (lat lon : ℚ) :
    format_coordinates lat lon "decimal" =
      formatFixed 4 |lat| ++ ", " ++ formatFixed 4 |lon| ∧
    format_coordinates (-lat) (-lon) "decimal" = format_coordinates lat lon "decimal" ∧
    format_coordinates (-338688/10000) (1512093/10000) "decimal" = "33.8688, 151.2093" ∧
    format_coordinates lat lon "default" =
      formatFixed 4 |lat| ++ "° " ++ (if 0 ≤ lat then "N" else "S") ++ " / " ++
        formatFixed 4 |lon| ++ "° " ++ (if 0 ≤ lon then "E" else "W") := by
  refine ⟨format_coordinates_decimal_eq lat lon, ?_, ?_,
    format_coordinates_default_eq lat lon⟩
  · rw [format_coordinates_decimal_eq, format_coordinates_decimal_eq,
      abs_neg, abs_neg]
  · have hlat : formatFixed 4 |(-338688/10000 : ℚ)| = "33.8688" := by
      rw [abs_of_nonpos (by norm_num), formatFixed4_of_num 338688 _ (by norm_num)
        (by push_cast; norm_num)]
      rfl
    have hlon : formatFixed 4 |(1512093/10000 : ℚ)| = "151.2093" := by
      rw [abs_of_nonneg (by norm_num), formatFixed4_of_num 1512093 _ (by norm_num)
        (by push_cast; norm_num)]
      rfl
    rw [format_coordinates_decimal_eq, hlat, hlon]
    rfl

/-- A JSON-ish theme value: themes map string keys to colors, numbers,
booleans, or lists (palettes, weights). -/
inductive ThemeVal where
  | s (v : String)
  | n (v : ℚ)
  | b (v : Bool)
  | strs (v : List String)
  | nums (v : List ℚ)
deriving DecidableEq

/-- A theme: the Python dict, as an association list. -/
abbrev Theme := List (String × ThemeVal)

/-- `theme[k]` lookup without a default (`None` when absent). -/
def themeLookup (t : Theme) (k : String) : Option ThemeVal :=
  (t.find? (fun p => p.1 == k)).map (fun p => p.2)

/-- `theme.get(k, dflt)` for a color string. -/
def themeGetStrD (t : Theme) (k : String) (dflt : String) : String :=
  match themeLookup t k with
  | some (ThemeVal.s v) => v
  | _ => dflt

/-- `theme.get(k, dflt)` for a list of color strings. -/
def themeGetStrsD (t : Theme) (k : String) (dflt : List String) : List String :=
  match themeLookup t k with
  | some (ThemeVal.strs v) => v
  | _ => dflt

/-- `theme.get(k, None)` for a list of numeric weights. -/
def themeGetNums? (t : Theme) (k : String) : Option (List ℚ) :=
  match themeLookup t k with
  | some (ThemeVal.nums v) => some v
  | _ => none

/-- `DEFAULT_THEME_COLORS` from `modules/config.py`: the built-in fallback
theme returned whenever a theme file is missing or unparsable. -/
def DEFAULT_THEME_COLORS : Theme :=
  [("name", ThemeVal.s "Default"),
   ("description", ThemeVal.s "Built-in default theme"),
   ("bg", ThemeVal.s "#FFFFFF"),
   ("text", ThemeVal.s "#000000"),
   ("gradient_color", ThemeVal.s "#000000"),
   ("water", ThemeVal.s "#A8DADC"),
   ("parks", ThemeVal.s "#90BE6D"),
   ("road_motorway", ThemeVal.s "#F77F00"),
   ("road_primary", ThemeVal.s "#F94144"),
   ("road_secondary", ThemeVal.s "#F8961E"),
   ("road_tertiary", ThemeVal.s "#F9C74F"),
   ("road_residential", ThemeVal.s "#90BE6D"),
   ("road_default", ThemeVal.s "#CCCCCC"),
   ("buildings", ThemeVal.s "#D0D0D0"),
   ("buildings_fill", ThemeVal.s "#E8E8E8"),
   ("paths", ThemeVal.s "#B0B0B0"),
   ("farmland", ThemeVal.s "#F5F5DC"),
   ("forest", ThemeVal.s "#C8E6C9"),
   ("meadow", ThemeVal.s "#E8F5E9"),
   ("waterways", ThemeVal.s "#7CB9E8"),
   ("railways", ThemeVal.s "#4A4A4A"),
   ("railways_dash", ThemeVal.s "#FFFFFF"),
   ("hedges", ThemeVal.s "#6B8E23"),
   ("leisure", ThemeVal.s "#C5E1A5"),
   ("amenities", ThemeVal.s "#E0E0E0"),
   ("amenities_edge", ThemeVal.s "#808080")]

/-- `PosterGenerator.load_theme` from `modules/poster_generator.py`.  The
theme directory is modelled by `files`, mapping a theme name to `none` when
`themes/name.json` does not exist, to `Except.error e` when reading or JSON
parsing raises, and to `Except.ok t` for a parsed theme.  The returned flag
records whether the fallback warning was printed; the function is total — it
never raises. -/
def load_theme (files : String → Option (Except String Theme))
    (theme_name : String) : Theme × Bool :=
  match files theme_name with
  | none => (DEFAULT_THEME_COLORS, true)
  | some (Except.error _) => (DEFAULT_THEME_COLORS, true)
  | some (Except.ok t) => (t, false)

/-- C6: for a theme name with no matching file, and for a theme file whose
contents fail to parse, `load_theme` returns exactly the built-in default
theme together with a non-fatal warning; being total, it never raises for a
missing theme. -/
theorem load_theme_missing_or_bad_returns_default
    (files : String → Option (Except String Theme)) (theme_name : String)
    (h : files theme_name = none ∨ ∃ e, files theme_name = some (Except.error e)) :
    load_theme files theme_name = (DEFAULT_THEME_COLORS, true) := by
  rcases h with h | ⟨e, h⟩ <;> simp [load_theme, h]

theorem load_theme_missing_or_bad_returns_default_witness :
    load_theme (fun _ => none) "sunset_gold" = (DEFAULT_THEME_COLORS, true) :=
  load_theme_missing_or_bad_returns_default (fun _ => none) "sunset_gold"
    (Or.inl rfl)

/-- `LAYER_ZOOM_THRESHOLDS` from `modules/config.py`: only the keys
`all_on` (2000) and `buildings_only` (8000) are defined. -/
def LAYER_ZOOM_THRESHOLDS : List (String × ℤ) :=
  [("all_on", 2000), ("buildings_only", 8000)]

/-- Python `dict[key]` over an association list: `KeyError(key)` when the key
is absent. -/
def dictIndexZ (d : List (String × ℤ)) (k : String) : Except String ℤ :=
  match d.find? (fun p => p.1 == k) with
  | some p => Except.ok p.2
  | none => Except.error k

/-- The `all_layers` dictionary built at the top of
`PosterGenerator.get_layer_defaults`: every known layer flag, all `False`. -/
def allLayers : List (String × Bool) :=
  ["buildings", "paths", "landscape", "waterways", "railways", "hedges",
   "leisure", "amenities", "forests", "farmland", "meadows", "beaches",
   "sand", "grass", "retail", "industrial", "residential", "commercial",
   "parking", "sports_pitches", "golf_courses", "airports", "heliports",
   "runways", "taxiways", "aeroways", "bridges", "tunnels", "fords",
   "piers", "docks", "marinas", "breakwaters", "groynes", "weirs", "dams",
   "locks", "canals", "rivers", "streams", "lakes", "reservoirs", "ponds",
   "swimming_pools", "fountains", "water_towers", "water_works",
   "power_plants", "substations", "wind_turbines", "solar_panels",
   "quarries", "mines", "landfills", "wastewater_plants",
   "sewage_treatment_plants", "cemeteries", "churches", "mosques",
   "synagogues", "temples", "shrines", "monuments", "memorials", "statues",
   "artwork", "benches", "street_lamps", "waste_baskets", "post_boxes",
   "fire_hydrants", "telecom_masts", "communication_towers"].map
    (fun k => (k, false))

/-- Set the listed keys of a layer dictionary to `True` (the block of
`all_layers[k] = True` assignments in each band). -/
def setLayersTrue (d : List (String × Bool)) (ks : List String) :
    List (String × Bool) :=
  d.map (fun p => if ks.contains p.1 then (p.1, true) else p)

/-- `PosterGenerator.get_layer_defaults` from `modules/poster_generator.py`.
The `elif distance_m <= LAYER_ZOOM_THRESHOLDS["water_rail_only"]` branch
indexes a key that `modules/config.py` never defines, so evaluation for
distances above the `buildings_only` threshold raises `KeyError`, modelled as
`Except.error "water_rail_only"`. -/
def get_layer_defaults (distance_m : ℤ) : Except String (List (String × Bool)) := do
  let tAllOn ← dictIndexZ LAYER_ZOOM_THRESHOLDS "all_on"
  if distance_m ≤ tAllOn then
    return allLayers.map (fun p => (p.1, true))
  else
    let tBuildings ← dictIndexZ LAYER_ZOOM_THRESHOLDS "buildings_only"
    if distance_m ≤ tBuildings then
      return setLayersTrue allLayers
        ["buildings", "waterways", "railways", "leisure", "amenities",
         "forests", "meadows", "grass", "retail", "residential", "commercial",
         "parking", "sports_pitches", "golf_courses", "cemeteries",
         "churches", "mosques", "synagogues", "temples", "shrines",
         "monuments", "memorials", "statues", "artwork", "benches",
         "street_lamps", "waste_baskets", "post_boxes", "fire_hydrants",
         "telecom_masts", "communication_towers"]
    else
      let tWaterRail ← dictIndexZ LAYER_ZOOM_THRESHOLDS "water_rail_only"
      if distance_m ≤ tWaterRail then
        return setLayersTrue allLayers
          ["waterways", "railways", "airports", "industrial", "power_plants",
           "substations", "wind_turbines", "solar_panels", "quarries",
           "mines", "landfills", "wastewater_plants",
           "sewage_treatment_plants"]
      else
        return setLayersTrue allLayers
          ["waterways", "railways", "airports", "rivers", "lakes",
           "reservoirs", "canals"]

/-- C2 (code bug): for every distance above 8000m, `get_layer_defaults` does
not return a layer-visibility mapping — it raises `KeyError` for the
threshold key `water_rail_only`, which `modules/config.py` never defines; at
and below 8000m a boolean mapping is returned as described. -/
theorem get_layer_defaults_keyerror_above_8000 :
    get_layer_defaults 10000 = Except.error "water_rail_only" ∧
    get_layer_defaults 16000 = Except.error "water_rail_only" ∧
    get_layer_defaults 20000 = Except.error "water_rail_only" ∧
    (get_layer_defaults 8000).isOk = true ∧
    (get_layer_defaults 2000).isOk = true :=
  ⟨rfl, rfl, rfl, rfl, rfl⟩

/-- One geometric record of a GeoDataFrame: geometry type, WKT string,
bounds, and a predicate standing for shapely `geometry.contains(Point(x,y))`. -/
structure Feature where
  gtype : String
  wkt : String
  minx : ℚ
  miny : ℚ
  maxx : ℚ
  maxy : ℚ
  containsPt : ℚ → ℚ → Bool
  landuse : Option String := none
  natural : Option String := none

/-- A feature collection (GeoDataFrame rows). -/
abbrev Gdf := List Feature

/-- The `geometry.type.isin(['Polygon', 'MultiPolygon'])` filter predicate. -/
def isPolyType (t : String) : Bool :=
  t == "Polygon" || t == "MultiPolygon"

/-- A scattered window light: position, color, size. -/
structure WindowLight where
  x : ℚ
  y : ℚ
  color : String
  size : ℚ
deriving DecidableEq

/-- One drawing command issued onto the matplotlib axes; a render produces a
list of these. -/
inductive DrawCmd where
  | blockPoly (wkt : String) (face edge : String) (zorder : ℚ)
  | gdfPolys (layer : String) (face edge : String) (zorder : ℚ)
  | gdfLines (layer : String) (color : String) (zorder : ℚ)
  | glow (cls : String) (color : String) (baseWidth : ℚ) (numLayers : ℚ) (zorder : ℚ)
  | windowLights (pts : List WindowLight)
  | graphPlot (edgeColors : List String) (edgeWidths : List ℚ)
  | gradientFade (color : String) (location : String)
  | horizonGlow (color : String)
  | vignette (intensity : ℚ)
  | intersectionGlow
  | textOverlay (city country : String)
deriving DecidableEq

/-- `get_block_color` from `modules/poster_generator.py`.  A draw from
`random.Random(seed_value)` is a pure function of the seed; the two library
draw primitives `rng.choices(colors, weights=w, k=1)[0]` and
`rng.choice(colors)` are the function parameters `rngChoices`/`rngChoice`.
Python truthiness: an empty weights list selects the unweighted branch. -/
def get_block_color (rngChoices : ℤ → List String → List ℚ → String)
    (rngChoice : ℤ → List String → String) (theme : Theme)
    (seed_value : ℤ) : String :=
  let block_colors := themeGetStrsD theme "block_colors"
    ["#E8642C", "#3C4654", "#8B8860"]
  match themeGetNums? theme "block_color_weights" with
  | some weights =>
    if weights ≠ [] ∧ weights.length = block_colors.length then
      rngChoices seed_value block_colors weights
    else
      rngChoice seed_value block_colors
  | none => rngChoice seed_value block_colors

/-- `render_kandinsky_buildings` from `modules/poster_generator.py`: filter
polygon rows, seed each fill color with `hash(row.geometry.wkt) % 1000000`
(`pyHash` is the process-salted Python string hash), and emit one filled
polygon per building. -/
def render_kandinsky_buildings (pyHash : String → ℤ)
    (rngChoices : ℤ → List String → List ℚ → String)
    (rngChoice : ℤ → List String → String) (theme : Theme)
    (buildings : Option Gdf) (zorder : ℚ) : List DrawCmd :=
  match buildings with
  | none => []
  | some gdf =>
    if gdf.isEmpty then []
    else
      let polys := gdf.filter (fun f => isPolyType f.gtype)
      if polys.isEmpty then []
      else
        let edge_color := themeGetStrD theme "buildings_edge" "#1A1A1A"
        polys.map (fun f =>
          let geom_hash := (pyHash f.wkt) % 1000000
          DrawCmd.blockPoly f.wkt
            (get_block_color rngChoices rngChoice theme geom_hash)
            edge_color zorder)

/-- A stand-in for the salted Python string hash of one process. -/
def pyHashA : String → ℤ := fun s => (s.length : ℤ)

/-- A stand-in for the salted Python string hash of another process
(a different `PYTHONHASHSEED`). -/
def pyHashB : String → ℤ := fun s => (s.length : ℤ) + 1

/-- A concrete deterministic model of `random.Random(seed).choice`:
index by the seed. -/
def modelChoice : ℤ → List String → String :=
  fun seed colors => colors.getD (seed.toNat % colors.length) ""

/-- A concrete deterministic model of `random.Random(seed).choices`. -/
def modelChoices : ℤ → List String → List ℚ → String :=
  fun seed colors _ => colors.getD (seed.toNat % colors.length) ""

/-- A concrete building polygon. -/
def bldgK : Feature :=
  { gtype := "Polygon"
    wkt := "POLYGON ((0 0, 1 0, 1 1, 0 1, 0 0))"
    minx := 0, miny := 0, maxx := 1, maxy := 1
    containsPt := fun _ _ => true }

/-- C1 (code bug): the kandincity fill color of a building is a deterministic
function of the polygon WKT only together with the per-process string-hash
salt: with the hash fixed, repeated renders agree, but the same WKT rendered
under two different salted hashes (two process runs) can draw different
palette colors, because `hash(wkt)` on a Python `str` is salted per process. -/
theorem kandincity_color_depends_on_hash_salt :
    render_kandinsky_buildings pyHashA modelChoices modelChoice []
        (some [bldgK]) 3 =
      render_kandinsky_buildings pyHashA modelChoices modelChoice []
        (some [bldgK]) 3 ∧
    render_kandinsky_buildings pyHashA modelChoices modelChoice []
        (some [bldgK]) 3 ≠
      render_kandinsky_buildings pyHashB modelChoices modelChoice []
        (some [bldgK]) 3 := by
  refine ⟨rfl, ?_⟩
  intro h
  have h1 : render_kandinsky_buildings pyHashA modelChoices modelChoice []
      (some [bldgK]) 3 =
      [DrawCmd.blockPoly bldgK.wkt "#8B8860" "#1A1A1A" 3] := rfl
  have h2 : render_kandinsky_buildings pyHashB modelChoices modelChoice []
      (some [bldgK]) 3 =
      [DrawCmd.blockPoly bldgK.wkt "#E8642C" "#1A1A1A" 3] := rfl
  rw [h1, h2] at h
  simp at h

/-- `random.uniform(a, b)` at draw counter `k` of the process random stream
`u` (a value `a + (b - a) * u k`). -/
def pyUniform (u : ℕ → ℚ) (a b : ℚ) (k : ℕ) : ℚ :=
  a + (b - a) * u k

/-- The shapely/`math` comparison `sqrt(dsq) < t` expressed without square
roots: true iff `t` is positive and `dsq < t^2`. -/
def sqrtLt (dsq t : ℚ) : Bool :=
  decide (0 < t) && decide (dsq < t ^ 2)

/-- The inner `for _ in range(num_lights)` loop of `add_window_lights`: draw
a candidate point, and when the building polygon contains it, record it with
a color from the inner/outer palette and a random size.  `u` is the uniform
float stream, `pick` the integer stream behind `random.choice`, `k` the
draw counter. -/
def windowLoop (u : ℕ → ℚ) (pick : ℕ → ℕ) (f : Feature) (isInner : Bool)
    (inner outer : List String) : ℕ → ℕ → List WindowLight × ℕ
  | 0, k => ([], k)
  | n+1, k =>
    let px := pyUniform u (f.minx + 2) (f.maxx - 2) k
    let py := pyUniform u (f.miny + 2) (f.maxy - 2) (k+1)
    if f.containsPt px py then
      let colors := if isInner then inner else outer
      let c := colors.getD (pick (k+2) % colors.length) ""
      let sz := pyUniform u (3/10) (3/2) (k+3)
      let r := windowLoop u pick f isInner inner outer n (k+4)
      (⟨px, py, c, sz⟩ :: r.1, r.2)
    else
      windowLoop u pick f isInner inner outer n (k+2)

/-- The per-building body of `add_window_lights`: skip buildings whose
bounding box is narrower or shorter than 10 map units, otherwise classify the
building center as inner/outer by its distance from the map center against
`max_dist * 0.4` and scatter `min(int(area / 400), 6)` candidate lights. -/
def lightsForBuilding (u : ℕ → ℚ) (pick : ℕ → ℕ) (inner outer : List String)
    (cx cy maxd : ℚ) (f : Feature) (k : ℕ) : List WindowLight × ℕ :=
  if f.maxx - f.minx < 10 ∨ f.maxy - f.miny < 10 then ([], k)
  else
    let bxc := (f.minx + f.maxx) / 2
    let byc := (f.miny + f.maxy) / 2
    let dsq := (bxc - cx) ^ 2 + (byc - cy) ^ 2
    let isInner := sqrtLt dsq (maxd * (4/10))
    let area := (f.maxx - f.minx) * (f.maxy - f.miny)
    let numLights := (min (pyInt (area / 400)) 6).toNat
    windowLoop u pick f isInner inner outer numLights k

/-- The fold step of `add_window_lights`: accumulate one building, threading
the draw counter. -/
def wlStep (u : ℕ → ℚ) (pick : ℕ → ℕ) (inner outer : List String)
    (cx cy maxd : ℚ) (acc : List WindowLight × ℕ) (f : Feature) :
    List WindowLight × ℕ :=
  let r := lightsForBuilding u pick inner outer cx cy maxd f acc.2
  (acc.1 ++ r.1, r.2)

/-- `add_window_lights` from `modules/poster_generator.py`: filter polygon
rows and fold the per-building scatter over them, threading the random draw
counter; returns the scattered lights. -/
def add_window_lights (u : ℕ → ℚ) (pick : ℕ → ℕ) (theme : Theme)
    (cx cy maxd : ℚ) (buildings : Option Gdf) : List WindowLight :=
  match buildings with
  | none => []
  | some gdf =>
    if gdf.isEmpty then []
    else
      let polys := gdf.filter (fun f => isPolyType f.gtype)
      let inner := themeGetStrsD theme "window_lights_inner"
        ["#E8E8FF", "#D0E0FF", "#F0F0FF", "#FFFFFF"]
      let outer := themeGetStrsD theme "window_lights_outer"
        ["#FFE4B5", "#FFEFD5", "#FFD700", "#FFA500"]
      (polys.foldl (wlStep u pick inner outer cx cy maxd)
        (([] : List WindowLight), 0)).1

theorem lightsForBuilding_small (u : ℕ → ℚ) (pick : ℕ → ℕ)
    (inner outer : List String) (cx cy maxd : ℚ) (f : Feature) (k : ℕ)
    (hsmall : f.maxx - f.minx < 10 ∨ f.maxy - f.miny < 10) :
    lightsForBuilding u pick inner outer cx cy maxd f k = ([], k) := by
  unfold lightsForBuilding
  rw [if_pos hsmall]

theorem add_window_lights_eq_fold (u : ℕ → ℚ) (pick : ℕ → ℕ) (theme : Theme)
    (cx cy maxd : ℚ) (gdf : Gdf) :
    add_window_lights u pick theme cx cy maxd (some gdf) =
      ((gdf.filter (fun f => isPolyType f.gtype)).foldl
        (wlStep u pick
          (themeGetStrsD theme "window_lights_inner"
            ["#E8E8FF", "#D0E0FF", "#F0F0FF", "#FFFFFF"])
          (themeGetStrsD theme "window_lights_outer"
            ["#FFE4B5", "#FFEFD5", "#FFD700", "#FFA500"])
          cx cy maxd)
        (([] : List WindowLight), 0)).1 := by
  simp only [add_window_lights]
  cases h : gdf.isEmpty
  · rfl
  · have hnil : gdf = [] := List.isEmpty_iff.mp h
    subst hnil
    rfl

theorem wlStep_small (u : ℕ → ℚ) (pick : ℕ → ℕ) (inner outer : List String)
    (cx cy maxd : ℚ) (acc : List WindowLight × ℕ) (f : Feature)
    (hsmall : f.maxx - f.minx < 10 ∨ f.maxy - f.miny < 10) :
    wlStep u pick inner outer cx cy maxd acc f = acc := by
  simp [wlStep, lightsForBuilding_small u pick inner outer cx cy maxd f _ hsmall]

/-- C8: a building whose bounding box is narrower than 10 or shorter than 10
map units contributes zero window-light scatter points: removing it from the
building collection leaves the scattered lights of `add_window_lights`
unchanged (only buildings with both extents at least 10 are scattered). -/
theorem small_building_contributes_no_lights (u : ℕ → ℚ) (pick : ℕ → ℕ)
    (theme : Theme) (cx cy maxd : ℚ) (g1 g2 : List Feature) (f : Feature)
    (hsmall : f.maxx - f.minx < 10 ∨ f.maxy - f.miny < 10) :
    add_window_lights u pick theme cx cy maxd (some (g1 ++ f :: g2)) =
      add_window_lights u pick theme cx cy maxd (some (g1 ++ g2)) := by
  rw [add_window_lights_eq_fold, add_window_lights_eq_fold]
  rw [List.filter_append, List.filter_append, List.filter_cons]
  cases hp : isPolyType f.gtype
  · simp
  · simp only [if_pos rfl, if_true]
    rw [List.foldl_append, List.foldl_append, List.foldl_cons]
    rw [wlStep_small u pick _ _ cx cy maxd _ f hsmall]

/-- A concrete uniform stream for witnesses. -/
def wlU : ℕ → ℚ := fun _ => 1/2

/-- A concrete integer stream for witnesses. -/
def wlPick : ℕ → ℕ := fun _ => 0

/-- A large building polygon (bounding box 50 × 50). -/
def bldgBig : Feature :=
  { gtype := "Polygon", wkt := "big"
    minx := 0, miny := 0, maxx := 50, maxy := 50
    containsPt := fun _ _ => true }

/-- A small building polygon (bounding box 5 × 40: width below 10). -/
def bldgSmall : Feature :=
  { gtype := "Polygon", wkt := "small"
    minx := 0, miny := 0, maxx := 5, maxy := 40
    containsPt := fun _ _ => true }

theorem small_building_contributes_no_lights_witness :
    add_window_lights wlU wlPick [] 0 0 100 (some ([bldgBig] ++ bldgSmall :: [])) =
      add_window_lights wlU wlPick [] 0 0 100 (some ([bldgBig] ++ [])) :=
  small_building_contributes_no_lights wlU wlPick [] 0 0 100 [bldgBig] [] bldgSmall
    (Or.inl (by norm_num [bldgSmall]))

/-- One street-graph edge: the normalized OSM `highway` tag (`none` when the
edge data lacks the key; a Python list-valued tag is already collapsed to its
first element, as both consumers do). -/
structure Edge where
  highway : Option String

/-- The street network graph: projected node coordinates and edges. -/
structure Graph where
  nodes : List (ℚ × ℚ)
  edges : List Edge

/-- `PAPER_SIZES` from `modules/config.py` (width, height in inches). -/
def PAPER_SIZES : List (String × (ℚ × ℚ)) :=
  [("A2", (1654/100, 2339/100)), ("A3", (1169/100, 1654/100)),
   ("A4", (827/100, 1169/100)), ("A5", (583/100, 827/100))]

/-- `paper_size in PAPER_SIZES` / `PAPER_SIZES[paper_size]`. -/
def paperLookup (k : String) : Option (ℚ × ℚ) :=
  (PAPER_SIZES.find? (fun p => p.1 == k)).map (fun p => p.2)

/-- `ROAD_HIERARCHY` from `modules/config.py`: highway tag to
(theme color key, line width). -/
def ROAD_HIERARCHY : List (String × (String × ℚ)) :=
  [("motorway", ("road_motorway", 12/10)),
   ("motorway_link", ("road_motorway", 12/10)),
   ("trunk", ("road_primary", 1)),
   ("primary", ("road_primary", 1)),
   ("secondary", ("road_secondary", 8/10)),
   ("tertiary", ("road_tertiary", 6/10)),
   ("residential", ("road_residential", 4/10)),
   ("living_street", ("road_residential", 4/10)),
   ("unclassified", ("road_default", 4/10))]

/-- Python `theme[k]` on a color key: `KeyError` when absent (a present
non-string value is used as-is by matplotlib; modelled as `""`). -/
def themeIndexStr (t : Theme) (k : String) : Except String String :=
  match themeLookup t k with
  | some (ThemeVal.s v) => Except.ok v
  | some _ => Except.ok ""
  | none => Except.error k

/-- `theme.get(k, dflt)` for a numeric value. -/
def themeGetNumD (t : Theme) (k : String) (dflt : ℚ) : ℚ :=
  match themeLookup t k with
  | some (ThemeVal.n v) => v
  | _ => dflt

/-- `theme.get(k, dflt)` for a boolean flag. -/
def themeGetBoolD (t : Theme) (k : String) (dflt : Bool) : Bool :=
  match themeLookup t k with
  | some (ThemeVal.b v) => v
  | _ => dflt

/-- `PosterGenerator.get_layer_color`: the layer key if present, else the
fallback key if given and present, else the theme background. -/
def get_layer_color (theme : Theme) (layer_key : String)
    (fallback_key : Option String) : String :=
  match themeLookup theme layer_key with
  | some (ThemeVal.s v) => v
  | some _ => ""
  | none =>
    match fallback_key with
    | some fk =>
      match themeLookup theme fk with
      | some (ThemeVal.s v) => v
      | some _ => ""
      | none => themeGetStrD theme "bg" "#FFFFFF"
    | none => themeGetStrD theme "bg" "#FFFFFF"

/-- The per-edge body of `PosterGenerator.get_edge_colors_by_type`: a known
highway tag reads `theme[road_default]` eagerly as the `.get` default (a
`KeyError` if absent) and then looks up the hierarchy color key; an unknown
tag falls back to `theme.get("road_default", "#CCCCCC")`. -/
def edgeColor (theme : Theme) (e : Edge) : Except String String :=
  let highway := e.highway.getD "unclassified"
  match ROAD_HIERARCHY.find? (fun p => p.1 == highway) with
  | some p => do
    let rd ← themeIndexStr theme "road_default"
    return themeGetStrD theme p.2.1 rd
  | none => return themeGetStrD theme "road_default" "#CCCCCC"

/-- `PosterGenerator.get_edge_colors_by_type`. -/
def get_edge_colors_by_type (theme : Theme) (g : Graph) :
    Except String (List String) :=
  g.edges.mapM (edgeColor theme)

/-- `PosterGenerator.get_edge_widths_by_type`. -/
def get_edge_widths_by_type (g : Graph) : List ℚ :=
  g.edges.map (fun e =>
    let highway := e.highway.getD "unclassified"
    match ROAD_HIERARCHY.find? (fun p => p.1 == highway) with
    | some p => p.2.2
    | none => 4/10)

/-- Minimum of a nonempty coordinate list. -/
def listMinQ (a : ℚ) (l : List ℚ) : ℚ := l.foldl min a

/-- Maximum of a nonempty coordinate list. -/
def listMaxQ (a : ℚ) (l : List ℚ) : ℚ := l.foldl max a

/-- The y-extent of the graph nodes (0 for an empty node list). -/
def graphYRange (g : Graph) : ℚ :=
  match g.nodes with
  | [] => 0
  | n0 :: _ =>
    listMaxQ n0.2 (g.nodes.map (fun p => p.2)) -
      listMinQ n0.2 (g.nodes.map (fun p => p.2))

/-- `PosterGenerator.get_crop_limits`: trim the longer axis symmetrically
about the data center so the data aspect matches the figure aspect.
Python `min()`/`max()` raise `ValueError` on an empty node sequence, and the
`x_range / y_range` division raises `ZeroDivisionError` when the y-extent is
zero. -/
def get_crop_limits (figW figH : ℚ) (g : Graph) :
    Except String ((ℚ × ℚ) × (ℚ × ℚ)) :=
  match g.nodes with
  | [] => Except.error "min() arg is an empty sequence"
  | n0 :: _ =>
    let minx := listMinQ n0.1 (g.nodes.map (fun p => p.1))
    let maxx := listMaxQ n0.1 (g.nodes.map (fun p => p.1))
    let miny := listMinQ n0.2 (g.nodes.map (fun p => p.2))
    let maxy := listMaxQ n0.2 (g.nodes.map (fun p => p.2))
    let xRange := maxx - minx
    let yRange := maxy - miny
    if yRange = 0 then Except.error "float division by zero"
    else
      let desired := figW / figH
      let current := xRange / yRange
      let cx := (minx + maxx) / 2
      let cy := (miny + maxy) / 2
      if desired < current then
        Except.ok ((cx - yRange * desired / 2, cx + yRange * desired / 2),
          (miny, maxy))
      else if current < desired then
        Except.ok ((minx, maxx),
          (cy - xRange / desired / 2, cy + xRange / desired / 2))
      else
        Except.ok ((minx, maxx), (miny, maxy))

/-- The `geometry.type.isin(['LineString', 'MultiLineString'])` predicate. -/
def isLineType (t : String) : Bool :=
  t == "LineString" || t == "MultiLineString"

/-- The recurring guard pattern of every feature layer: nothing is drawn when
the fetch failed (`None`), the collection is empty, or no rows of the wanted
geometry type remain; otherwise one plot call is issued. -/
def polyLayerDraw (o : Option Gdf) (layer face edge : String) (z : ℚ) :
    List DrawCmd :=
  match o with
  | none => []
  | some gdf =>
    if gdf.isEmpty then []
    else if (gdf.filter (fun f => isPolyType f.gtype)).isEmpty then []
    else [DrawCmd.gdfPolys layer face edge z]

/-- The line-geometry variant of the layer guard. -/
def lineLayerDraw (o : Option Gdf) (layer color : String) (z : ℚ) :
    List DrawCmd :=
  match o with
  | none => []
  | some gdf =>
    if gdf.isEmpty then []
    else if (gdf.filter (fun f => isLineType f.gtype)).isEmpty then []
    else [DrawCmd.gdfLines layer color z]

/-- The rendered poster: figure dimensions, background fill, and the list of
drawing commands applied to the axes. -/
structure Figure where
  width : ℚ
  height : ℚ
  facecolor : String
  draws : List DrawCmd
deriving DecidableEq

/-- The per-row color dispatch of the landscape block in the standard mode
(`landuse`/`natural` tags to `farmland`/`meadow`/`forest` theme colors, all
falling back to `parks`). -/
def landscapeRowColor (theme : Theme) (f : Feature) : String :=
  if f.landuse = some "farmland" then
    get_layer_color theme "farmland" (some "parks")
  else if f.landuse = some "meadow" ∨ f.natural = some "grassland" then
    get_layer_color theme "meadow" (some "parks")
  else if f.landuse = some "forest" ∨ f.natural = some "wood" ∨
      f.natural = some "scrub" then
    get_layer_color theme "forest" (some "parks")
  else
    get_layer_color theme "meadow" (some "parks")

/-- The standard-mode rendering block of `PosterGenerator.generate_poster`:
fixed z-order layer stack, road hierarchy coloring, aspect-ratio crop,
gradient fades and text.  Direct `theme[...]` indexing (`bg`, `water`,
`parks`, `gradient_color`, and `road_default` behind recognized road tags)
propagates `KeyError`; every optional feature layer is guarded and skipped
when missing or empty. -/
def render_standard (theme : Theme) (g : Graph) (figW figH : ℚ)
    (water parks landscape waterways railways hedges leisure paths
      amenities buildings : Option Gdf)
    (city country : String) : Except String Figure := do
  let bg ← themeIndexStr theme "bg"
  let landDraws :=
    match landscape with
    | none => []
    | some gdf =>
      if gdf.isEmpty then []
      else
        let polys := gdf.filter (fun f => isPolyType f.gtype)
        if polys.isEmpty then []
        else polys.map (fun f =>
          DrawCmd.gdfPolys "landscape" (landscapeRowColor theme f) "none" 0)
  let waterColor ← themeIndexStr theme "water"
  let waterDraws := polyLayerDraw water "water" waterColor "none" 1
  let waterwaysDraws := lineLayerDraw waterways "waterways"
    (get_layer_color theme "waterways" (some "water")) (3/2)
  let parksColor ← themeIndexStr theme "parks"
  let parksDraws := polyLayerDraw parks "parks" parksColor "none" 2
  let leisureDraws := polyLayerDraw leisure "leisure"
    (get_layer_color theme "leisure" (some "parks")) "none" (5/2)
  let amenDraws := polyLayerDraw amenities "amenities"
    (get_layer_color theme "amenities" (some "buildings_fill"))
    (get_layer_color theme "amenities_edge" (some "buildings")) (28/10)
  let bldgDraws := polyLayerDraw buildings "buildings"
    (get_layer_color theme "buildings_fill" (some "bg"))
    (get_layer_color theme "buildings" (some "text")) 3
  let hedgesDraws := lineLayerDraw hedges "hedges"
    (get_layer_color theme "hedges" (some "parks")) (7/2)
  let pathsDraws := lineLayerDraw paths "paths"
    (get_layer_color theme "paths" (some "road_residential")) 4
  let railDraws := lineLayerDraw railways "railways"
    (get_layer_color theme "railways" (some "text")) (9/2)
  let edgeColors ← get_edge_colors_by_type theme g
  let edgeWidths := get_edge_widths_by_type g
  let _crop ← get_crop_limits figW figH g
  let gradColor ← themeIndexStr theme "gradient_color"
  return { width := figW, height := figH, facecolor := bg
           draws := landDraws ++ waterDraws ++ waterwaysDraws ++ parksDraws ++
             leisureDraws ++ amenDraws ++ bldgDraws ++ hedgesDraws ++
             pathsDraws ++ railDraws ++
             [DrawCmd.graphPlot edgeColors edgeWidths,
              DrawCmd.gradientFade gradColor "bottom",
              DrawCmd.gradientFade gradColor "top",
              DrawCmd.textOverlay city country] }

/-- `PosterGenerator._render_night_lights`: dark silhouettes, six glow passes
split by hierarchy and inner/outer color temperature, window lights from the
filtered building polygons (skipped entirely when the building layer is
missing or empty — the `NameError` on `buildings_polys` is swallowed by the
`try`), horizon glow, text.  Total: it uses only `.get` theme access. -/
def render_night_lights (u : ℕ → ℚ) (pick : ℕ → ℕ) (theme : Theme)
    (g : Graph) (figW figH : ℚ) (water parks buildings : Option Gdf)
    (city country : String) : Figure :=
  let bg := themeGetStrD theme "bg" "#040408"
  let xs := g.nodes.map (fun p => p.1)
  let ys := g.nodes.map (fun p => p.2)
  let xmin := match g.nodes with | [] => 0 | n0 :: _ => listMinQ n0.1 xs
  let xmax := match g.nodes with | [] => 0 | n0 :: _ => listMaxQ n0.1 xs
  let ymin := match g.nodes with | [] => 0 | n0 :: _ => listMinQ n0.2 ys
  let ymax := match g.nodes with | [] => 0 | n0 :: _ => listMaxQ n0.2 ys
  let cx := (xmin + xmax) / 2
  let cy := (ymin + ymax) / 2
  let maxd := max (xmax - xmin) (ymax - ymin) / 2
  let waterDraws := polyLayerDraw water "water"
      (themeGetStrD theme "water" "#020208") "none" 1 ++
    polyLayerDraw water "water_reflection" "#FFB34720" "none" (3/2)
  let parksDraws := polyLayerDraw parks "parks"
    (themeGetStrD theme "parks" "#030306") "none" 1
  let bldgDraws := polyLayerDraw buildings "buildings"
    (themeGetStrD theme "buildings_fill" "#08080f")
    (themeGetStrD theme "buildings_edge" "#101018") 2
  let glowLayers := themeGetNumD theme "glow_layers" 8
  let glowIntensity := themeGetNumD theme "glow_intensity" (9/10)
  let glowDraws :=
    [DrawCmd.glow "minor_outer" (themeGetStrD theme "road_residential" "#E07010") (25/100) 5 3,
     DrawCmd.glow "minor_inner" (themeGetStrD theme "road_residential_inner" "#FFD8A8") (25/100) 5 3,
     DrawCmd.glow "secondary_outer" (themeGetStrD theme "road_secondary" "#FF9020") (45/100) 6 4,
     DrawCmd.glow "secondary_inner" (themeGetStrD theme "road_secondary_inner" "#FFE0C0") (45/100) 6 4,
     DrawCmd.glow "major_outer" (themeGetStrD theme "road_motorway" "#FFB030") (8/10) glowLayers 5,
     DrawCmd.glow "major_inner" (themeGetStrD theme "road_motorway_inner" "#FFEEDD") (8/10) glowLayers 5]
  let lights :=
    match buildings with
    | none => []
    | some gdf =>
      if gdf.isEmpty then []
      else add_window_lights u pick theme cx cy maxd
        (some (gdf.filter (fun f => isPolyType f.gtype)))
  let _ := glowIntensity
  { width := figW, height := figH, facecolor := bg
    draws := waterDraws ++ parksDraws ++ bldgDraws ++ glowDraws ++
      [DrawCmd.windowLights lights,
       DrawCmd.horizonGlow (themeGetStrD theme "horizon_glow" "#0a1530"),
       DrawCmd.textOverlay city country] }

/-- `PosterGenerator._render_holonight`: neon glow on pure black, optional
intersection glow (only when the theme flag `render_intersections` is set)
and optional vignette (only for positive intensity).  Total: `.get` access
only.  The intersection scatter contents (nodes of degree at least 3) are
abstracted into a single command. -/
def render_holonight (theme : Theme) (g : Graph) (figW figH : ℚ)
    (water parks buildings : Option Gdf) (city country : String) : Figure :=
  let bg := themeGetStrD theme "bg" "#000008"
  let waterDraws := polyLayerDraw water "water"
    (themeGetStrD theme "water" "#021020")
    (themeGetStrD theme "water_edge" "#004060") 1
  let parksDraws := polyLayerDraw parks "parks"
    (themeGetStrD theme "parks" "#010408") "none" 1
  let bldgDraws := polyLayerDraw buildings "buildings"
    (themeGetStrD theme "buildings_fill" "#040812")
    (themeGetStrD theme "buildings_edge" "#0A1530") 2
  let glowLayers := themeGetNumD theme "glow_layers" 10
  let glowDraws :=
    [DrawCmd.glow "minor" (themeGetStrD theme "road_residential" "#00A8E8") (3/10) 6 3,
     DrawCmd.glow "secondary" (themeGetStrD theme "road_secondary" "#00D4FF") (5/10) 8 4,
     DrawCmd.glow "major" (themeGetStrD theme "road_motorway" "#00FFFF") (9/10) glowLayers 5]
  let interDraws :=
    if themeGetBoolD theme "render_intersections" false then
      [DrawCmd.intersectionGlow]
    else []
  let vignetteIntensity := themeGetNumD theme "vignette_intensity" (3/10)
  let vignetteDraws :=
    if 0 < vignetteIntensity then [DrawCmd.vignette vignetteIntensity] else []
  { width := figW, height := figH, facecolor := bg
    draws := waterDraws ++ parksDraws ++ bldgDraws ++ glowDraws ++
      interDraws ++ vignetteDraws ++ [DrawCmd.textOverlay city country] }

/-- The per-edge color of the kandincity road pass (the inline if/elif chain
of `_render_kandincity`). -/
def kandinRoadColor (theme : Theme) (e : Edge) : String :=
  let hw := e.highway.getD "unclassified"
  if hw = "motorway" ∨ hw = "motorway_link" ∨ hw = "trunk" ∨ hw = "trunk_link" then
    themeGetStrD theme "road_motorway" "#1A1A1A"
  else if hw = "primary" ∨ hw = "primary_link" then
    themeGetStrD theme "road_primary" "#2A2A2A"
  else if hw = "secondary" ∨ hw = "secondary_link" then
    themeGetStrD theme "road_secondary" "#3A3A3A"
  else if hw = "tertiary" ∨ hw = "tertiary_link" then
    themeGetStrD theme "road_tertiary" "#4A4A4A"
  else if hw = "residential" ∨ hw = "living_street" then
    themeGetStrD theme "road_residential" "#5A5A5A"
  else
    themeGetStrD theme "road_default" "#6A6A6A"

/-- The per-edge width of the kandincity road pass. -/
def kandinRoadWidth (theme : Theme) (e : Edge) : ℚ :=
  let hw := e.highway.getD "unclassified"
  if hw = "motorway" ∨ hw = "motorway_link" ∨ hw = "trunk" ∨ hw = "trunk_link" then
    themeGetNumD theme "road_width_motorway" (12/10)
  else if hw = "primary" ∨ hw = "primary_link" then
    themeGetNumD theme "road_width_primary" 1
  else if hw = "secondary" ∨ hw = "secondary_link" then
    themeGetNumD theme "road_width_secondary" (8/10)
  else if hw = "tertiary" ∨ hw = "tertiary_link" then
    themeGetNumD theme "road_width_tertiary" (6/10)
  else if hw = "residential" ∨ hw = "living_street" then
    themeGetNumD theme "road_width_residential" (4/10)
  else
    3/10

/-- `PosterGenerator._render_kandincity`: cream background, water blending
into the background, muted parks, seeded colored building blocks, thin flat
roads.  The aspect-ratio crop can propagate the degenerate-graph errors of
`get_crop_limits`; all theme access is `.get` with defaults. -/
def render_kandincity (pyHash : String → ℤ)
    (rngChoices : ℤ → List String → List ℚ → String)
    (rngChoice : ℤ → List String → String) (theme : Theme) (g : Graph)
    (figW figH : ℚ) (water parks buildings : Option Gdf)
    (city country : String) : Except String Figure := do
  let bg := themeGetStrD theme "bg" "#E8DCC8"
  let _crop ← get_crop_limits figW figH g
  let waterDraws := polyLayerDraw water "water"
    (themeGetStrD theme "water" bg) "none" 1
  let parksDraws := polyLayerDraw parks "parks"
    (themeGetStrD theme "parks" "#8B9860") "none" 2
  let bldgDraws :=
    match buildings with
    | none => []
    | some gdf =>
      if gdf.isEmpty then []
      else render_kandinsky_buildings pyHash rngChoices rngChoice theme
        (some gdf) 3
  let edgeColors := g.edges.map (kandinRoadColor theme)
  let edgeWidths := g.edges.map (kandinRoadWidth theme)
  return { width := figW, height := figH, facecolor := bg
           draws := waterDraws ++ parksDraws ++ bldgDraws ++
             [DrawCmd.graphPlot edgeColors edgeWidths,
              DrawCmd.textOverlay city country] }

/-- The per-call fetch environment: what the OSM collaborators would return
for this render; `none` models a fetch that failed (or raised and was caught
as `None`). -/
structure FetchEnv where
  graph : Option Graph
  water : Option Gdf
  parks : Option Gdf
  landscape : Option Gdf
  buildings : Option Gdf
  paths : Option Gdf
  waterways : Option Gdf
  railways : Option Gdf
  hedges : Option Gdf
  leisure : Option Gdf
  amenities : Option Gdf

/-- `layers.get(name)` over the layer-visibility dict (`None`/absent is
falsy). -/
def layersGetD (layers : List (String × Bool)) (k : String) : Bool :=
  match layers.find? (fun p => p.1 == k) with
  | some p => p.2
  | none => false

/-- `PosterGenerator.generate_poster` from `modules/poster_generator.py`.
Control flow in source order: resolve layer defaults when the caller passed
none (which can raise `KeyError`, see `get_layer_defaults`), validate the
paper size (unknown sizes fall back to A4 with a warning, no error), fetch
the street graph (aborting with `RuntimeError` when it yields `None` — the
one fatal fetch), fetch water/parks and each enabled detail layer (a `None`
result is kept and later skipped by the draw guards), then dispatch on
`theme.get("mode", "standard")` to one of the four renderers.  The second
component counts fetch calls performed (a failed fetch still counts). -/
def generate_poster (pyHash : String → ℤ)
    (rngChoices : ℤ → List String → List ℚ → String)
    (rngChoice : ℤ → List String → String) (u : ℕ → ℚ) (pick : ℕ → ℕ)
    (env : FetchEnv) (theme : Theme) (city country : String)
    (paper_size : String) (distance : ℤ)
    (layersArg : Option (List (String × Bool))) :
    Except String Figure × ℕ :=
  match (match layersArg with
         | some l => Except.ok l
         | none => get_layer_defaults distance) with
  | Except.error e => (Except.error e, 0)
  | Except.ok layers =>
    let paper := if (paperLookup paper_size).isSome then paper_size else "A4"
    let wh := (paperLookup paper).getD (827/100, 1169/100)
    match env.graph with
    | none => (Except.error "Failed to retrieve street network data.", 1)
    | some g =>
      let water := env.water
      let parks := env.parks
      let landscape := if layersGetD layers "landscape" then env.landscape else none
      let buildings := if layersGetD layers "buildings" then env.buildings else none
      let paths := if layersGetD layers "paths" then env.paths else none
      let waterways := if layersGetD layers "waterways" then env.waterways else none
      let railways := if layersGetD layers "railways" then env.railways else none
      let hedges := if layersGetD layers "hedges" then env.hedges else none
      let leisure := if layersGetD layers "leisure" then env.leisure else none
      let amenities := if layersGetD layers "amenities" then env.amenities else none
      let nFetch := 3 + (["landscape", "buildings", "paths", "waterways",
        "railways", "hedges", "leisure", "amenities"].countP
          (fun n => layersGetD layers n))
      let mode := themeGetStrD theme "mode" "standard"
      let result : Except String Figure :=
        if mode = "night_lights" then
          Except.ok (render_night_lights u pick theme g wh.1 wh.2
            water parks buildings city country)
        else if mode = "holonight" then
          Except.ok (render_holonight theme g wh.1 wh.2
            water parks buildings city country)
        else if mode = "kandincity" then
          render_kandincity pyHash rngChoices rngChoice theme g wh.1 wh.2
            water parks buildings city country
        else
          render_standard theme g wh.1 wh.2 water parks landscape waterways
            railways hedges leisure paths amenities buildings city country
      (result, nFetch)

/-- `PosterGeneratorService.generate_poster` from
`backend/services/generator_service.py`: reject when the service is not
initialized, then reject any distance above the configured maximum — both
before the legacy generator is even constructed, so before any fetch —
otherwise delegate to the legacy `generate_poster`. -/
def service_generate_poster (initialized : Bool) (max_distance : ℤ)
    (pyHash : String → ℤ) (rngChoices : ℤ → List String → List ℚ → String)
    (rngChoice : ℤ → List String → String) (u : ℕ → ℚ) (pick : ℕ → ℕ)
    (env : FetchEnv) (theme : Theme) (city country : String)
    (paper_size : String) (distance : ℤ)
    (layersArg : Option (List (String × Bool))) :
    Except String Figure × ℕ :=
  if initialized = false then
    (Except.error "Poster generator service not initialized", 0)
  else if max_distance < distance then
    (Except.error "Distance exceeds maximum", 0)
  else
    generate_poster pyHash rngChoices rngChoice u pick env theme
      city country paper_size distance layersArg

/-- C7: for every distance strictly greater than the configured maximum, the
service rejects the call with an explicit error before any fetch occurs: the
fetch-call counter is 0 and no figure is produced (whether or not the
service is initialized, the rejection precedes generator construction). -/
theorem distance_over_max_rejected_before_fetch (initialized : Bool)
    (max_distance : ℤ) (pyHash : String → ℤ)
    (rngChoices : ℤ → List String → List ℚ → String)
    (rngChoice : ℤ → List String → String) (u : ℕ → ℚ) (pick : ℕ → ℕ)
    (env : FetchEnv) (theme : Theme) (city country paper_size : String)
    (distance : ℤ) (layersArg : Option (List (String × Bool)))
    (h : max_distance < distance) :
    (service_generate_poster initialized max_distance pyHash rngChoices
      rngChoice u pick env theme city country paper_size distance
      layersArg).2 = 0 ∧
    ((service_generate_poster initialized max_distance pyHash rngChoices
      rngChoice u pick env theme city country paper_size distance
      layersArg).1).isOk = false := by
  unfold service_generate_poster
  cases initialized <;> simp [h, Except.isOk, Except.toBool]

/-- A fetch environment in which every fetch would fail. -/
def envAllNone : FetchEnv :=
  { graph := none, water := none, parks := none, landscape := none,
    buildings := none, paths := none, waterways := none, railways := none,
    hedges := none, leisure := none, amenities := none }

theorem distance_over_max_rejected_before_fetch_witness :
    (service_generate_poster true 50000 pyHashA modelChoices modelChoice
      wlU wlPick envAllNone [] "Berlin" "Germany" "A4" 60000 none).2 = 0 ∧
    ((service_generate_poster true 50000 pyHashA modelChoices modelChoice
      wlU wlPick envAllNone [] "Berlin" "Germany" "A4" 60000 none).1).isOk =
      false :=
  distance_over_max_rejected_before_fetch true 50000 pyHashA modelChoices
    modelChoice wlU wlPick envAllNone [] "Berlin" "Germany" "A4" 60000 none
    (by decide)

theorem themeIndexStr_ok {t : Theme} {k : String}
    (h : (themeLookup t k).isSome) : ∃ v, themeIndexStr t k = Except.ok v := by
  cases hl : themeLookup t k with
  | none => simp [hl] at h
  | some v =>
    cases v with
    | s w => exact ⟨w, by simp [themeIndexStr, hl]⟩
    | n w => exact ⟨"", by simp [themeIndexStr, hl]⟩
    | b w => exact ⟨"", by simp [themeIndexStr, hl]⟩
    | strs w => exact ⟨"", by simp [themeIndexStr, hl]⟩
    | nums w => exact ⟨"", by simp [themeIndexStr, hl]⟩

theorem edgeColor_ok {t : Theme}
    (h : (themeLookup t "road_default").isSome) (e : Edge) :
    ∃ v, edgeColor t e = Except.ok v := by
  unfold edgeColor
  cases hf : ROAD_HIERARCHY.find?
      (fun p => p.1 == e.highway.getD "unclassified") with
  | none => exact ⟨themeGetStrD t "road_default" "#CCCCCC", by simp [hf]; rfl⟩
  | some p =>
    obtain ⟨v, hv⟩ := themeIndexStr_ok h
    refine ⟨themeGetStrD t p.2.1 v, ?_⟩
    simp [hf, hv]

theorem mapM_edgeColor_ok {t : Theme}
    (h : (themeLookup t "road_default").isSome) :
    ∀ es : List Edge, ∃ cs, List.mapM (edgeColor t) es = Except.ok cs := by
  intro es
  induction es with
  | nil => exact ⟨[], rfl⟩
  | cons e es ih =>
    obtain ⟨v, hv⟩ := edgeColor_ok h e
    obtain ⟨cs, hcs⟩ := ih
    refine ⟨v :: cs, ?_⟩
    rw [List.mapM_cons, hv, hcs]
    rfl

theorem crop_ok (figW figH : ℚ) (g : Graph) (hne : g.nodes ≠ [])
    (hy : graphYRange g ≠ 0) :
    ∃ c, get_crop_limits figW figH g = Except.ok c := by
  cases hn : g.nodes with
  | nil => exact absurd hn hne
  | cons n0 rest =>
    have hy2 : listMaxQ n0.2 (List.map (fun p => p.2) (n0 :: rest)) -
        listMinQ n0.2 (List.map (fun p => p.2) (n0 :: rest)) ≠ 0 := by
      simpa [graphYRange, hn] using hy
    unfold get_crop_limits
    simp only [hn]
    split_ifs with h1 h2 h3
    · exact absurd h1 hy2
    · exact ⟨_, rfl⟩
    · exact ⟨_, rfl⟩
    · exact ⟨_, rfl⟩

/-- `REQUIRED_THEME_KEYS` from `modules/config.py`. -/
def REQUIRED_THEME_KEYS : List String :=
  ["bg", "text", "gradient_color", "water", "parks", "road_motorway",
   "road_primary", "road_secondary", "road_tertiary", "road_residential",
   "road_default"]

theorem render_kandincity_ok {pyHash : String → ℤ}
    {rngChoices : ℤ → List String → List ℚ → String}
    {rngChoice : ℤ → List String → String} {theme : Theme} {g : Graph}
    {figW figH : ℚ} {water parks buildings : Option Gdf}
    {city country : String} {c : (ℚ × ℚ) × (ℚ × ℚ)}
    (hc : get_crop_limits figW figH g = Except.ok c) :
    (render_kandincity pyHash rngChoices rngChoice theme g figW figH water
      parks buildings city country).isOk = true := by
  unfold render_kandincity
  rw [hc]
  rfl

theorem render_standard_ok {theme : Theme} {g : Graph} {figW figH : ℚ}
    {water parks landscape waterways railways hedges leisure paths
      amenities buildings : Option Gdf} {city country : String}
    {bg wc pc gc : String} {cs : List String} {c : (ℚ × ℚ) × (ℚ × ℚ)}
    (hbg : themeIndexStr theme "bg" = Except.ok bg)
    (hwater : themeIndexStr theme "water" = Except.ok wc)
    (hparks : themeIndexStr theme "parks" = Except.ok pc)
    (hgrad : themeIndexStr theme "gradient_color" = Except.ok gc)
    (hcs : List.mapM (edgeColor theme) g.edges = Except.ok cs)
    (hc : get_crop_limits figW figH g = Except.ok c) :
    (render_standard theme g figW figH water parks landscape waterways
      railways hedges leisure paths amenities buildings city
      country).isOk = true := by
  unfold render_standard get_edge_colors_by_type
  rw [hbg, hwater, hparks, hcs, hc, hgrad]
  rfl

set_option maxHeartbeats 2000000 in
/-- C3: with an explicit layer-visibility dict, `generate_poster` aborts with
a raised error and no figure exactly when the street-graph fetch yields
`None` (counting that one fetch), while every optional feature layer of the
environment may independently be `None` (a failed fetch) or empty — the
render still completes with a figure, for every mode, given a theme carrying
the required keys and a non-degenerate street graph. -/
theorem generate_poster_fatal_graph_optional_layers (pyHash : String → ℤ)
    (rngChoices : ℤ → List String → List ℚ → String)
    (rngChoice : ℤ → List String → String) (u : ℕ → ℚ) (pick : ℕ → ℕ)
    (env : FetchEnv) (theme : Theme) (city country paper_size : String)
    (distance : ℤ) (layers : List (String × Bool))
    (hk : ∀ k ∈ REQUIRED_THEME_KEYS, (themeLookup theme k).isSome) :
    (env.graph = none →
      generate_poster pyHash rngChoices rngChoice u pick env theme city
        country paper_size distance (some layers) =
        (Except.error "Failed to retrieve street network data.", 1)) ∧
    (∀ g, env.graph = some g → g.nodes ≠ [] → graphYRange g ≠ 0 →
      ((generate_poster pyHash rngChoices rngChoice u pick env theme city
        country paper_size distance (some layers)).1).isOk = true) := by
  constructor
  · intro hnone
    unfold generate_poster
    rw [hnone]
  · intro g hg hne hy
    obtain ⟨bg, hbg⟩ := themeIndexStr_ok
      (hk "bg" (by simp [REQUIRED_THEME_KEYS]))
    obtain ⟨wc, hwater⟩ := themeIndexStr_ok
      (hk "water" (by simp [REQUIRED_THEME_KEYS]))
    obtain ⟨pc, hparks⟩ := themeIndexStr_ok
      (hk "parks" (by simp [REQUIRED_THEME_KEYS]))
    obtain ⟨gc, hgrad⟩ := themeIndexStr_ok
      (hk "gradient_color" (by simp [REQUIRED_THEME_KEYS]))
    obtain ⟨cs, hcs⟩ := mapM_edgeColor_ok
      (hk "road_default" (by simp [REQUIRED_THEME_KEYS])) g.edges
    obtain ⟨c, hc⟩ := crop_ok
      (((paperLookup (if (paperLookup paper_size).isSome then paper_size
        else "A4")).getD (827/100, 1169/100)).1)
      (((paperLookup (if (paperLookup paper_size).isSome then paper_size
        else "A4")).getD (827/100, 1169/100)).2) g hne hy
    unfold generate_poster
    rw [hg]
    by_cases hm1 : themeGetStrD theme "mode" "standard" = "night_lights"
    · simp [hm1, Except.isOk, Except.toBool]
    · by_cases hm2 : themeGetStrD theme "mode" "standard" = "holonight"
      · simp [hm1, hm2, Except.isOk, Except.toBool]
      · by_cases hm3 : themeGetStrD theme "mode" "standard" = "kandincity"
        · simp only [hm1, hm2, hm3, if_true, if_false, reduceIte]
          exact render_kandincity_ok hc
        · simp only [hm1, hm2, hm3, if_true, if_false, reduceIte]
          exact render_standard_ok hbg hwater hparks hgrad hcs hc

/-- A small concrete street graph. -/
def gK : Graph :=
  { nodes := [(0, 0), (10, 20)], edges := [{ highway := some "primary" }] }

/-- A fetch environment where the street graph succeeded and every optional
feature fetch failed. -/
def envGraphOnly : FetchEnv :=
  { envAllNone with graph := some gK }

theorem generate_poster_fatal_graph_optional_layers_witness :
    ((generate_poster pyHashA modelChoices modelChoice wlU wlPick
      envGraphOnly DEFAULT_THEME_COLORS "Berlin" "Germany" "A4" 8000
      (some [("buildings", true)])).1).isOk = true :=
  (generate_poster_fatal_graph_optional_layers pyHashA modelChoices
    modelChoice wlU wlPick envGraphOnly DEFAULT_THEME_COLORS "Berlin"
    "Germany" "A4" 8000 [("buildings", true)] (by decide)).2 gK rfl
    (by decide) (by simp [graphYRange, gK, listMaxQ, listMinQ])
